import Mathlib

/-!
Verification of the registration pipeline in `src/routes/auth/register.ts`
(TCSS460-GROUP8-BACKEND).

The TypeScript source is shallowly embedded: request-body values become an
explicit `JSValue` type (a registration body arrives as JSON, so fields may be
missing, `null`, strings or numbers), synchronous JS exceptions become
`Except Unit`, the two `pool.query` inserts become an outcome oracle plus an
explicit store of inserted rows, and `console.dir` / `console.error` output
becomes an explicit log trace.
-/

namespace Register

/-- A JSON-ish JavaScript value as it can appear in a request body field.
Strings are lists of Unicode scalar values; numbers are modelled as integers
(the claims only exercise integral numbers). -/
inductive JSValue : Type
  | undef
  | null
  | str (s : List Char)
  | num (n : Int)
  deriving DecidableEq

/-- UTF-16 width of one Unicode scalar value (astral scalars occupy two
code units), used to model the JavaScript `String.prototype.length`. -/
def utf16Width (c : Char) : Nat :=
  if c.toNat < 65536 then 1 else 2

/-- JavaScript `s.length`: number of UTF-16 code units. -/
def jsLength (s : List Char) : Nat :=
  (s.map utf16Width).sum

/-- The characters the ECMAScript `StrWhiteSpace` / regex `\s` production
accepts (WhiteSpace plus LineTerminator); also what `parseInt` and `Number`
skip at the ends of a string. -/
def jsWhitespace : List Char :=
  [' ', '\t', '\n', '\r', '\x0b', '\x0c', '\u00A0', '\u1680',
   '\u2000', '\u2001', '\u2002', '\u2003', '\u2004', '\u2005',
   '\u2006', '\u2007', '\u2008', '\u2009', '\u200A',
   '\u2028', '\u2029', '\u202F', '\u205F', '\u3000', '\uFEFF']

def isJsWhitespace (c : Char) : Bool :=
  jsWhitespace.contains c

/-- Value of an ASCII hex digit, `none` otherwise. -/
def hexDigitVal (c : Char) : Option Nat :=
  if c.isDigit then some (c.toNat - 48)
  else if 'a' ≤ c ∧ c ≤ 'f' then some (c.toNat - 87)
  else if 'A' ≤ c ∧ c ≤ 'F' then some (c.toNat - 55)
  else none

/-- Value of a digit string in the given base (digits assumed valid). -/
def digitsVal (base : Nat) (ds : List Char) : Nat :=
  ds.foldl (fun a c => a * base + ((hexDigitVal c).getD 0)) 0

/-- Optional leading sign, as in JS `parseInt`. -/
def parseIntSign (t : List Char) : Int × List Char :=
  match t with
  | z :: r => if z = '-' then (-1, r) else if z = '+' then (1, r) else (1, z :: r)
  | [] => (1, [])

/-- What follows a `0x`/`0X` radix prefix, when present. -/
def hexPrefixRest (u : List Char) : Option (List Char) :=
  match u with
  | z :: x :: r => if z = '0' ∧ (x = 'x' ∨ x = 'X') then some r else none
  | _ => none

/-- Digit-parsing phase of JS `parseInt` (radix auto-detection: a `0x`/`0X`
prefix switches to hexadecimal, otherwise decimal; parsing stops at the first
character that is not a digit of the radix; no digits at all gives `NaN`,
modelled as `none`). -/
def parseIntDigits (sign : Int) (u : List Char) : Option Int :=
  match hexPrefixRest u with
  | some r =>
      let ds := r.takeWhile (fun c => (hexDigitVal c).isSome)
      if ds = [] then none else some (sign * Int.ofNat (digitsVal 16 ds))
  | none =>
      let ds := u.takeWhile Char.isDigit
      if ds = [] then none else some (sign * Int.ofNat (digitsVal 10 ds))

/-- JavaScript `parseInt` on a string: skip leading whitespace, optional sign,
then digits; `NaN` is modelled as `none`. -/
def parseIntStr (s : List Char) : Option Int :=
  let t := s.dropWhile isJsWhitespace
  let p := parseIntSign t
  parseIntDigits p.1 p.2

/-- `(e|E)(+|-)?digits` exponent suffix of a JS decimal numeric literal
(the empty suffix is allowed). -/
def expPart (l : List Char) : Bool :=
  match l with
  | [] => true
  | e :: r =>
      (e = 'e' ∨ e = 'E') &&
      (match r with
       | '+' :: d => d ≠ [] && d.all Char.isDigit
       | '-' :: d => d ≠ [] && d.all Char.isDigit
       | d => d ≠ [] && d.all Char.isDigit)

/-- Unsigned decimal mantissa with optional fraction and exponent, as accepted
by JS `Number(...)`: `digits [. digits] [exp]` or `. digits [exp]`. -/
def decMantissa (l : List Char) : Bool :=
  let intPart := l.takeWhile Char.isDigit
  match l.dropWhile Char.isDigit with
  | '.' :: r =>
      let fracPart := r.takeWhile Char.isDigit
      (intPart ≠ [] || fracPart ≠ []) && expPart (r.dropWhile Char.isDigit)
  | rest => intPart ≠ [] && expPart rest

/-- Unsigned radix-prefixed numeric literal (`0x…`, `0o…`, `0b…`) as accepted
by JS `Number(...)` (no sign allowed before these). -/
def radixLiteral (l : List Char) : Bool :=
  match l with
  | '0' :: x :: r =>
      if x = 'x' ∨ x = 'X' then r ≠ [] && r.all (fun c => (hexDigitVal c).isSome)
      else if x = 'o' ∨ x = 'O' then r ≠ [] && r.all (fun c => '0' ≤ c ∧ c ≤ '7')
      else if x = 'b' ∨ x = 'B' then r ≠ [] && r.all (fun c => c = '0' ∨ c = '1')
      else false
  | _ => false

def trimJsWhitespace (s : List Char) : List Char :=
  ((s.dropWhile isJsWhitespace).reverse.dropWhile isJsWhitespace).reverse

/-- Whether JS `Number(s)` yields a non-`NaN` number: the trimmed string is
empty (gives `0`), a radix literal, or an optionally signed decimal literal or
`Infinity`. -/
def strConvertsToNumber (s : List Char) : Bool :=
  let t := trimJsWhitespace s
  t = [] ||
  radixLiteral t ||
  (match t with
   | '+' :: r => decMantissa r || r = "Infinity".data
   | '-' :: r => decMantissa r || r = "Infinity".data
   | _ => decMantissa t || t = "Infinity".data)

/-- Modelled from the spec: `validationFunctions.isStringProvided` lives in
`core/utilities`, which is not under `src/`.  Spec §4.1 (`isPresent`): true iff
the candidate is a string that is non-empty; non-string candidates are not
"provided" strings and yield `false` (no exception). -/
def isStringProvided (v : JSValue) : Bool :=
  match v with
  | .str s => s ≠ []
  | _ => false

/-- Modelled from the spec: `validationFunctions.isNumberProvided` lives in
`core/utilities`, which is not under `src/`.  A candidate counts as a provided
number when it is a number value, or a non-null, non-empty value whose string
form converts to a JS number (i.e. `Number(candidate.toString())` is not
`NaN`).  Note that every number *value* counts, `NaN` included: inside
`isValidPassword` the source therefore additionally tests
`!isNaN(parseInt(char))`, and that second test is the one doing the work. -/
def isNumberProvided (v : JSValue) : Bool :=
  match v with
  | .num _ => true
  | .str s => s ≠ [] && strConvertsToNumber s
  | _ => false

/-- JS `parseInt` applied to a request-body value: strings are parsed
directly; a number value is first converted with `String(n)`, and re-parsing
the decimal representation of an integer returns that integer; `undefined`
and `null` stringify to `"undefined"`/`"null"`, which parse to `NaN`. -/
def parseIntVal (v : JSValue) : Option Int :=
  match v with
  | .str s => parseIntStr s
  | .num n => some n
  | .undef => none
  | .null => none

/-- The character class of the source's `testSpecial` regex
`/^[!@#$%^&*()_+\-=\[\]{};':"\\|,.<>\/?]*$/` (applied to single characters,
the regex holds exactly on members of this class). -/
def specialRegexChars : List Char :=
  ['!', '@', '#', '$', '%', '^', '&', '*', '(', ')', '_', '+', '-', '=',
   '[', ']', '{', '}', ';', '\'', ':', '"', '\\', '|', ',', '.', '<', '>',
   '/', '?']

def testSpecial (c : Char) : Bool :=
  specialRegexChars.contains c

/-- `parseInt` on a one-character string: the decimal value for an ASCII
digit, `NaN` (`none`) otherwise.  `parseIntStr_singleton` below proves this
agrees with the general `parseIntStr` model. -/
def parseIntChar (c : Char) : Option Nat :=
  if c.isDigit then some (c.toNat - 48) else none

/-- Loop state of the `isValidPassword` scan (`sum`, `isNum`,
`hasSpecialChar` in the source). -/
structure PwScan where
  sum : Nat
  isNum : Bool
  hasSpecialChar : Bool
  deriving DecidableEq

/-- One iteration of the `for (const char of password)` loop.  The source
guard is `isNumberProvided(parseInt(char)) && !isNaN(parseInt(char))`;
since `parseInt(char)` is always a number value, the guard reduces to
`parseInt(char)` not being `NaN`.  A digit adds its value to the sum; a
non-digit in the special class sets `hasSpecialChar` (the `else if`). -/
def pwStep (st : PwScan) (c : Char) : PwScan :=
  match parseIntChar c with
  | some d => { st with sum := d + st.sum, isNum := true }
  | none => if testSpecial c then { st with hasSpecialChar := true } else st

/-- `isValidPassword` from the source.  A non-string argument throws a
`TypeError` (`.length` access on `undefined`/`null`, or the `for..of`
iteration on a number), modelled as `.error ()`. -/
def isValidPassword (v : JSValue) : Except Unit Bool :=
  match v with
  | .str password =>
      if jsLength password < 15 then .ok false
      else
        let r := password.foldl pwStep ⟨0, false, false⟩
        .ok (r.isNum && r.hasSpecialChar && r.sum == 20)
  | _ => .error ()

/-- `isValidPhone` from the source: `isStringProvided(phone) &&
phone.length >= 10`.  The length access is guarded by the short-circuiting
`&&`, so the non-string arm below is unreachable and the predicate is total. -/
def isValidPhone (v : JSValue) : Bool :=
  isStringProvided v &&
    (match v with
     | .str s => 10 ≤ jsLength s
     | _ => false)

/-- `isValidRole` from the source: `isNumberProvided(priority) &&
parseInt(priority) >= 1 && parseInt(priority) <= 5` (a `NaN` comparison is
false). -/
def isValidRole (v : JSValue) : Bool :=
  isNumberProvided v &&
    (match parseIntVal v with
     | some n => decide (1 ≤ n) && decide (n ≤ 5)
     | none => false)

/-! ### The email regular expression

The source tests `email.toLowerCase()` against
`/^(([^<>()[\]\\.,;:\s@"]+(\.[^<>()[\]\\.,;:\s@"]+)*)|.(".+"))@((\[[0-9]{1,3}\.[0-9]{1,3}\.[0-9]{1,3}\.[0-9]{1,3}\])|(([a-zA-Z\-0-9]+\.)+[a-zA-Z]{2,}))$/`.
The matcher is modelled structurally: a string matches iff it splits at some
`@` into a local part (a dot-separated chain of non-empty atom runs, or the
`.(".+")` quoted alternative) and a domain (a bracketed IPv4 literal or a
dot-separated name ending in two or more letters). -/

/-- Membership in the negated class `[^<>()[\]\\.,;:\s@"]`. -/
def atomChar (c : Char) : Bool :=
  !((['<', '>', '(', ')', '[', ']', '\\', '.', ',', ';', ':', '@', '"'].contains c) ||
    isJsWhitespace c)

/-- `[^…]+(\.[^…]+)*`: splitting on dots yields only non-empty atom runs
(atoms cannot contain a dot, which is in the negated class). -/
def localDotChain (s : List Char) : Bool :=
  (s.splitOn '.').all (fun p => p ≠ [] && p.all atomChar)

/-- JS regex `.` (no `s` flag) matches everything except a line terminator. -/
def notLineTerminator (c : Char) : Bool :=
  !(c = '\n' || c = '\r' || c = '\u2028' || c = '\u2029')

/-- The `.(".+")` local-part alternative: one arbitrary non-terminator
character, a quote, one or more non-terminator characters, a closing quote
(necessarily the last character of the local part). -/
def localQuoted (s : List Char) : Bool :=
  match s with
  | c0 :: '"' :: rest =>
      notLineTerminator c0 &&
      (rest.getLast? == some '"') &&
      rest.dropLast ≠ [] &&
      (rest.dropLast).all notLineTerminator
  | _ => false

/-- `[0-9]{1,3}` group of the bracketed IPv4 alternative. -/
def ipv4Group (p : List Char) : Bool :=
  p ≠ [] && p.length ≤ 3 && p.all Char.isDigit

/-- `\[[0-9]{1,3}(\.[0-9]{1,3}){3}\]`. -/
def domainIPv4 (s : List Char) : Bool :=
  match s with
  | '[' :: rest =>
      (rest.getLast? == some ']') &&
      (let ps := (rest.dropLast).splitOn '.'
       ps.length == 4 && ps.all ipv4Group)
  | _ => false

def asciiLetter (c : Char) : Bool :=
  ('a' ≤ c && c ≤ 'z') || ('A' ≤ c && c ≤ 'Z')

def alnumHyphen (c : Char) : Bool :=
  asciiLetter c || c.isDigit || c = '-'

/-- `([a-zA-Z\-0-9]+\.)+[a-zA-Z]{2,}`: every dot-separated piece but the last
is a non-empty alphanumeric-or-hyphen run, and the last is two or more
letters (there is at least one dot). -/
def domainNamed (s : List Char) : Bool :=
  let ps := s.splitOn '.'
  2 ≤ ps.length &&
  ps.dropLast.all (fun p => p ≠ [] && p.all alnumHyphen) &&
  (match ps.getLast? with
   | some last => 2 ≤ jsLength last && last.all asciiLetter
   | none => false)

def emailLocal (s : List Char) : Bool :=
  localDotChain s || localQuoted s

def emailDomain (s : List Char) : Bool :=
  domainIPv4 s || domainNamed s

/-- The anchored regex holds iff the string splits at some `@` into a local
part and a domain part. -/
def emailRegexTest (s : List Char) : Bool :=
  (List.range s.length).any (fun i =>
    (s.getD i ' ' == '@') && emailLocal (s.take i) && emailDomain (s.drop (i + 1)))

/-- `isValidEmail` from the source: `email.toLowerCase().match(...)`, used for
its truthiness.  Calling `.toLowerCase()` on a missing or non-string value
throws a `TypeError`, modelled as `.error ()`.  (`toLowerCase` is modelled as
ASCII lowercasing; the characters the pattern is sensitive to are ASCII.) -/
def isValidEmail (v : JSValue) : Except Unit Bool :=
  match v with
  | .str s => .ok (emailRegexTest (s.map Char.toLower))
  | _ => .error ()

/-! ### The registration pipeline (`registerRouter.post('/register', ...)`)

The Express middleware chain is modelled as one function over the request
body.  Each handler either sends a response (terminating the chain) or calls
`next()`.  The two `pool.query` calls are an outcome oracle (`DBOutcomes`)
together with an explicit store of inserted rows; a successful
`INSERT INTO Account` appends a row and yields the storage-assigned
`account_id`.  A synchronous throw escaping a handler (possible only in the
validation handlers) is `.error ()`; inside the promise callbacks of the two
inserts, a throw is caught by the attached `.catch`. -/

structure RequestBody where
  firstname : JSValue
  lastname : JSValue
  username : JSValue
  email : JSValue
  phone : JSValue
  password : JSValue
  role : JSValue
  deriving DecidableEq

/-- A persistence failure as the `catch` handlers see it: pg exposes the name
of a violated constraint on `error.constraint` (absent for other failures). -/
structure DBError where
  constraint : Option (List Char)
  deriving DecidableEq

/-- Oracle for the outcomes of the two inserts of one registration. -/
structure DBOutcomes where
  accountInsert : Except DBError Int
  credentialInsert : Except DBError Unit

/-- Row written by `INSERT INTO Account(firstname, lastname, username, email,
phone, account_role) VALUES (...) RETURNING account_id` (the password is not
among the inserted values). -/
structure AccountRow where
  account_id : Int
  firstname : JSValue
  lastname : JSValue
  username : JSValue
  email : JSValue
  phone : JSValue
  account_role : JSValue
  deriving DecidableEq

/-- Row written by `INSERT INTO Account_Credential(account_id, salted_hash,
salt)`.  The salt and hash come from `credentialingFunctions`
(`core/utilities`, not under `src/`); their contents are not claimed about,
so only the binding `account_id` is recorded. -/
structure CredentialRow where
  account_id : Int
  deriving DecidableEq

/-- The rows the storage layer holds. -/
structure Store where
  accounts : List AccountRow
  credentials : List CredentialRow
  deriving DecidableEq

inductive LoggedError
  | db (e : DBError)
  | signFailure
  deriving DecidableEq

/-- One line of console output of the pipeline: the `console.dir` of the
request body, or one of the two `console.error` calls of a catch handler. -/
inductive LogEntry
  | dir (b : RequestBody)
  | errLine (s : List Char)
  | errObj (e : LoggedError)
  deriving DecidableEq

/-- The result of `jwt.sign(payload, key, options)`: the payload fields, the
signing secret and the `expiresIn` option. -/
structure SignedToken where
  role : JSValue
  id : Int
  secret : List Char
  expiresIn : List Char
  deriving DecidableEq

inductive ResponseBody
  | message (m : List Char)
  | success (accessToken : SignedToken) (id : Int)
  deriving DecidableEq

structure HttpResponse where
  status : Nat
  body : ResponseBody
  deriving DecidableEq

/-- The exact message strings the source sends. -/
def missingFieldsMsg : List Char := "Missing required information".data

def invalidPhoneMsg : List Char :=
  "Invalid or missing phone number - please refer to documentation".data

def invalidPasswordMsg : List Char :=
  "Invalid or missing password - please refer to documentation".data

/-- Note the two spaces after "email" in the source. -/
def invalidEmailMsg : List Char :=
  "Invalid or missing email  - please refer to documentation".data

def invalidRoleMsg : List Char :=
  "Invalid or missing role - please refer to documentation".data

def usernameExistsMsg : List Char := "Username exists".data

def emailExistsMsg : List Char := "Email exists".data

def serverErrorMsg : List Char := "server error - contact support".data

def dbQueryErrorLine : List Char := "DB Query error on register".data

def accountUsernameKey : List Char := "account_username_key".data

def accountEmailKey : List Char := "account_email_key".data

def passwordMask : List Char := "******".data

/-- `jwt.sign` throws (`secretOrPrivateKey must have a value`) when the key is
falsy: `undefined` (env var absent) or the empty string. -/
def jwtSign (role : JSValue) (id : Int) (secret : Option (List Char))
    (expiresIn : List Char) : Except Unit SignedToken :=
  match secret with
  | none => .error ()
  | some k => if k = [] then .error () else .ok ⟨role, id, k, expiresIn⟩

/-- `{ ...request.body, password: '******' }`: spread of the body with the
password field overridden. -/
def maskedBody (req : RequestBody) : RequestBody :=
  { req with password := .str passwordMask }

def mkAccountRow (req : RequestBody) (aid : Int) : AccountRow :=
  ⟨aid, req.firstname, req.lastname, req.username, req.email, req.phone, req.role⟩

/-- The check of the required-fields handler. -/
def requiredFieldsOk (req : RequestBody) : Bool :=
  isStringProvided req.firstname && isStringProvided req.lastname &&
    isStringProvided req.username

/-- The response of the AccountInsert catch handler: the constraint name is
compared against `account_username_key`, then `account_email_key`; any other
failure gets the constant 500 response. -/
def accountInsertFailureResponse (e : DBError) : HttpResponse :=
  if e.constraint = some accountUsernameKey then ⟨400, .message usernameExistsMsg⟩
  else if e.constraint = some accountEmailKey then ⟨400, .message emailExistsMsg⟩
  else ⟨500, .message serverErrorMsg⟩

/-- The AccountInsert catch handler logs only on the fall-through branch. -/
def accountInsertFailureLogs (e : DBError) : List LogEntry :=
  if e.constraint = some accountUsernameKey then []
  else if e.constraint = some accountEmailKey then []
  else [.errLine dbQueryErrorLine, .errObj (.db e)]

/-- The tail of the chain once all validation handlers called `next()`: the
`console.dir`, the Account insert, the Credential insert, and the signing /
201 response, with both `.catch` handlers.  A `jwt.sign` throw inside the
`.then` callback is caught by the `.catch` attached after it, which logs and
sends the same 500 as a credential-insert failure. -/
def insertPhase (req : RequestBody) (db : DBOutcomes) (secret : Option (List Char))
    (s0 : Store) : HttpResponse × List LogEntry × Store :=
  let logs0 : List LogEntry := [.dir (maskedBody req)]
  match db.accountInsert with
  | .error e => (accountInsertFailureResponse e, logs0 ++ accountInsertFailureLogs e, s0)
  | .ok aid =>
    let s1 : Store := ⟨s0.accounts ++ [mkAccountRow req aid], s0.credentials⟩
    match db.credentialInsert with
    | .error e =>
        (⟨500, .message serverErrorMsg⟩,
         logs0 ++ [.errLine dbQueryErrorLine, .errObj (.db e)], s1)
    | .ok _ =>
      let s2 : Store := ⟨s1.accounts, s1.credentials ++ [⟨aid⟩]⟩
      match jwtSign req.role aid secret ("14 days".data) with
      | .ok tok => (⟨201, .success tok aid⟩, logs0, s2)
      | .error _ =>
          (⟨500, .message serverErrorMsg⟩,
           logs0 ++ [.errLine dbQueryErrorLine, .errObj .signFailure], s2)

/-- One run of the `/register` middleware chain, in source order:
`emailMiddlewareCheck`, required fields (firstname, lastname, username),
phone, password, role, then the insert phase. -/
def runRegister (req : RequestBody) (db : DBOutcomes) (secret : Option (List Char))
    (s0 : Store) : Except Unit (HttpResponse × List LogEntry × Store) :=
  match isValidEmail req.email with
  | .error _ => .error ()
  | .ok emailOk =>
    if emailOk then
      if requiredFieldsOk req then
        if isValidPhone req.phone then
          match isValidPassword req.password with
          | .error _ => .error ()
          | .ok pwOk =>
            if pwOk then
              if isValidRole req.role then .ok (insertPhase req db secret s0)
              else .ok (⟨400, .message invalidRoleMsg⟩, [], s0)
            else .ok (⟨400, .message invalidPasswordMsg⟩, [], s0)
        else .ok (⟨400, .message invalidPhoneMsg⟩, [], s0)
      else .ok (⟨400, .message missingFieldsMsg⟩, [], s0)
    else .ok (⟨400, .message invalidEmailMsg⟩, [], s0)

/-- All five validation handlers let the request through. -/
def validationPasses (req : RequestBody) : Prop :=
  isValidEmail req.email = .ok true ∧ requiredFieldsOk req = true ∧
  isValidPhone req.phone = true ∧ isValidPassword req.password = .ok true ∧
  isValidRole req.role = true

/-! ### Spec-side definitions

These render the claims' own words, to be compared against the embedded
source. -/

/-- The special-character set exactly as the claim lists it:
`{! @ # $ % ^ & * ( ) _ + - = [ ] { } ; ' : " \ | , . < > / ?}`. -/
def claimSpecialSet : List Char :=
  ['!', '@', '#', '$', '%', '^', '&', '*', '(', ')', '_', '+', '-', '=',
   '[', ']', '{', '}', ';', '\'', ':', '"', '\\', '|', ',', '.', '<', '>',
   '/', '?']

/-- Claim C1's digit sum: each digit character contributes its numeric value,
once per occurrence; other characters contribute nothing. -/
def digitSum (s : List Char) : Nat :=
  ((s.filter Char.isDigit).map (fun c => c.toNat - 48)).sum

/-- Claim C8's notion of "parses as an integer in the closed range [1,5]":
an optional sign followed by decimal digits only, with value in the range. -/
def integerNumeralInRange (s : List Char) : Bool :=
  match s with
  | z :: r =>
      if z = '-' then
        r ≠ [] && r.all Char.isDigit && decide (1 ≤ -(Int.ofNat (digitsVal 10 r))) &&
          decide (-(Int.ofNat (digitsVal 10 r)) ≤ 5)
      else if z = '+' then
        r ≠ [] && r.all Char.isDigit && decide (1 ≤ digitsVal 10 r) &&
          decide (digitsVal 10 r ≤ 5)
      else
        (z :: r).all Char.isDigit && decide (1 ≤ digitsVal 10 (z :: r)) &&
          decide (digitsVal 10 (z :: r) ≤ 5)
  | [] => false

/-- The validation stages in the order the claim lists them. -/
inductive Stage
  | emailCheckStage
  | requiredFieldsStage
  | phoneCheckStage
  | passwordCheckStage
  | roleCheckStage
  deriving DecidableEq

/-- What each stage checks, reusing the validators of the source. -/
def stageCheck (req : RequestBody) : Stage → Except Unit Bool
  | .emailCheckStage => isValidEmail req.email
  | .requiredFieldsStage => .ok (requiredFieldsOk req)
  | .phoneCheckStage => .ok (isValidPhone req.phone)
  | .passwordCheckStage => isValidPassword req.password
  | .roleCheckStage => .ok (isValidRole req.role)

/-- The rejection each stage produces on failure. -/
def stageRejection : Stage → HttpResponse
  | .emailCheckStage => ⟨400, .message invalidEmailMsg⟩
  | .requiredFieldsStage => ⟨400, .message missingFieldsMsg⟩
  | .phoneCheckStage => ⟨400, .message invalidPhoneMsg⟩
  | .passwordCheckStage => ⟨400, .message invalidPasswordMsg⟩
  | .roleCheckStage => ⟨400, .message invalidRoleMsg⟩

/-- The claimed stage order. -/
def pipelineStageOrder : List Stage :=
  [.emailCheckStage, .requiredFieldsStage, .phoneCheckStage,
   .passwordCheckStage, .roleCheckStage]

/-- First failing stage, walking the given order (a stage that throws
propagates the throw, as the middleware chain does). -/
def firstFailingStage (req : RequestBody) : List Stage → Except Unit (Option Stage)
  | [] => .ok none
  | st :: rest =>
      match stageCheck req st with
      | .error e => .error e
      | .ok true => firstFailingStage req rest
      | .ok false => .ok (some st)

/-- The eight stable reason codes of the claim. -/
inductive ReasonCode
  | missingFieldsCode
  | invalidPasswordCode
  | invalidPhoneCode
  | invalidEmailCode
  | invalidRoleCode
  | usernameTakenCode
  | emailTakenCode
  | internalErrorCode
  deriving DecidableEq

/-- The message string the source emits for each reason code. -/
def reasonMessage : ReasonCode → List Char
  | .missingFieldsCode => missingFieldsMsg
  | .invalidPasswordCode => invalidPasswordMsg
  | .invalidPhoneCode => invalidPhoneMsg
  | .invalidEmailCode => invalidEmailMsg
  | .invalidRoleCode => invalidRoleMsg
  | .usernameTakenCode => usernameExistsMsg
  | .emailTakenCode => emailExistsMsg
  | .internalErrorCode => serverErrorMsg

/-! ### Concrete inputs used by the witnesses -/

/-- A fully valid registration request: the password has length 16, contains
the special character `!`, and its digits 9, 9, 2 sum to 20. -/
def validReq : RequestBody :=
  { firstname := .str "Ada".data, lastname := .str "L".data,
    username := .str "ada".data, email := .str "a@b.com".data,
    phone := .str "1234567890".data,
    password := .str "992!aaaaaaaaaaaa".data, role := .str "3".data }

/-- Oracle where both inserts succeed and the account gets id 1. -/
def dbOk : DBOutcomes := ⟨.ok 1, .ok ()⟩

def emptyStore : Store := ⟨[], []⟩

/-! ### Helper lemmas about the password scan -/

theorem mem_of_isJsWhitespace {c : Char} (h : isJsWhitespace c = true) :
    c ∈ jsWhitespace := by
  simpa [isJsWhitespace, List.contains, List.elem_iff] using h

theorem ws_not_digit {c : Char} (h : isJsWhitespace c = true) : c.isDigit = false := by
  have hall : ∀ x ∈ jsWhitespace, x.isDigit = false := by decide
  exact hall c (mem_of_isJsWhitespace h)

theorem testSpecial_iff_mem (c : Char) : testSpecial c = true ↔ c ∈ claimSpecialSet := by
  have h : specialRegexChars = claimSpecialSet := rfl
  simp [testSpecial, List.contains, List.elem_iff, h]

theorem special_not_digit {c : Char} (h : c ∈ claimSpecialSet) : c.isDigit = false := by
  have hall : ∀ x ∈ claimSpecialSet, x.isDigit = false := by decide
  exact hall c h

theorem hexPrefixRest_nil : hexPrefixRest [] = none := rfl

theorem hexPrefixRest_singleton (c : Char) : hexPrefixRest [c] = none := rfl

/-- `parseInt` on a one-character string agrees with `parseIntChar`. -/
theorem parseIntStr_singleton (c : Char) :
    parseIntStr [c] = (parseIntChar c).map Int.ofNat := by
  by_cases hw : isJsWhitespace c
  · have hd : c.isDigit = false := ws_not_digit hw
    simp [parseIntStr, parseIntSign, parseIntDigits, parseIntChar, hexPrefixRest_nil,
      hw, hd]
  · by_cases hminus : c = '-'
    · subst hminus; decide
    · by_cases hplus : c = '+'
      · subst hplus; decide
      · by_cases hd : c.isDigit
        · simp [parseIntStr, parseIntSign, parseIntDigits, parseIntChar,
            hexPrefixRest_singleton, hw, hd, hminus, hplus, hexDigitVal, digitsVal]
        · simp [parseIntStr, parseIntSign, parseIntDigits, parseIntChar,
            hexPrefixRest_singleton, hw, hd, hminus, hplus]

theorem pwScan_sum (s : List Char) (st : PwScan) :
    (s.foldl pwStep st).sum = st.sum + digitSum s := by
  induction s generalizing st with
  | nil => simp [digitSum]
  | cons c cs ih =>
      by_cases hc : c.isDigit
      · simp [List.foldl_cons, pwStep, parseIntChar, hc, ih, digitSum, List.filter_cons]
        omega
      · by_cases hs : testSpecial c <;>
          simp [List.foldl_cons, pwStep, parseIntChar, hc, hs, ih, digitSum,
            List.filter_cons]

theorem pwScan_isNum (s : List Char) (st : PwScan) :
    (s.foldl pwStep st).isNum = (st.isNum || s.any Char.isDigit) := by
  induction s generalizing st with
  | nil => simp
  | cons c cs ih =>
      by_cases hc : c.isDigit
      · simp [List.foldl_cons, pwStep, parseIntChar, hc, ih]
      · by_cases hs : testSpecial c <;>
          simp [List.foldl_cons, pwStep, parseIntChar, hc, hs, ih]

theorem notdigit_and_special_iff (c : Char) :
    ((!c.isDigit) = true ∧ testSpecial c = true) ↔ c ∈ claimSpecialSet := by
  constructor
  · intro h
    exact (testSpecial_iff_mem c).mp h.2
  · intro h
    simp [special_not_digit h, (testSpecial_iff_mem c).mpr h]

theorem pwScan_special (s : List Char) (st : PwScan) :
    (s.foldl pwStep st).hasSpecialChar =
      (st.hasSpecialChar || s.any (fun c => !c.isDigit && testSpecial c)) := by
  induction s generalizing st with
  | nil => simp
  | cons c cs ih =>
      by_cases hc : c.isDigit
      · simp [List.foldl_cons, pwStep, parseIntChar, hc, ih]
      · by_cases hs : testSpecial c <;>
          simp [List.foldl_cons, pwStep, parseIntChar, hc, hs, ih]

/-! ### Reduction lemmas for the middleware chain -/

theorem runRegister_email_err {req : RequestBody} (db : DBOutcomes)
    (secret : Option (List Char)) (s0 : Store)
    (he : isValidEmail req.email = .error ()) :
    runRegister req db secret s0 = .error () := by
  unfold runRegister
  rw [he]

theorem runRegister_email_fail {req : RequestBody} (db : DBOutcomes)
    (secret : Option (List Char)) (s0 : Store)
    (he : isValidEmail req.email = .ok false) :
    runRegister req db secret s0 = .ok (⟨400, .message invalidEmailMsg⟩, [], s0) := by
  unfold runRegister
  rw [he]
  simp

theorem runRegister_fields_fail {req : RequestBody} (db : DBOutcomes)
    (secret : Option (List Char)) (s0 : Store)
    (he : isValidEmail req.email = .ok true) (hf : requiredFieldsOk req = false) :
    runRegister req db secret s0 = .ok (⟨400, .message missingFieldsMsg⟩, [], s0) := by
  unfold runRegister
  rw [he]
  simp [hf]

theorem runRegister_phone_fail {req : RequestBody} (db : DBOutcomes)
    (secret : Option (List Char)) (s0 : Store)
    (he : isValidEmail req.email = .ok true) (hf : requiredFieldsOk req = true)
    (hp : isValidPhone req.phone = false) :
    runRegister req db secret s0 = .ok (⟨400, .message invalidPhoneMsg⟩, [], s0) := by
  unfold runRegister
  rw [he]
  simp [hf, hp]

theorem runRegister_password_err {req : RequestBody} (db : DBOutcomes)
    (secret : Option (List Char)) (s0 : Store)
    (he : isValidEmail req.email = .ok true) (hf : requiredFieldsOk req = true)
    (hp : isValidPhone req.phone = true)
    (hpw : isValidPassword req.password = .error ()) :
    runRegister req db secret s0 = .error () := by
  unfold runRegister
  rw [he]
  simp [hf, hp, hpw]

theorem runRegister_password_fail {req : RequestBody} (db : DBOutcomes)
    (secret : Option (List Char)) (s0 : Store)
    (he : isValidEmail req.email = .ok true) (hf : requiredFieldsOk req = true)
    (hp : isValidPhone req.phone = true)
    (hpw : isValidPassword req.password = .ok false) :
    runRegister req db secret s0 = .ok (⟨400, .message invalidPasswordMsg⟩, [], s0) := by
  unfold runRegister
  rw [he]
  simp [hf, hp, hpw]

theorem runRegister_role_fail {req : RequestBody} (db : DBOutcomes)
    (secret : Option (List Char)) (s0 : Store)
    (he : isValidEmail req.email = .ok true) (hf : requiredFieldsOk req = true)
    (hp : isValidPhone req.phone = true)
    (hpw : isValidPassword req.password = .ok true) (hr : isValidRole req.role = false) :
    runRegister req db secret s0 = .ok (⟨400, .message invalidRoleMsg⟩, [], s0) := by
  unfold runRegister
  rw [he]
  simp [hf, hp, hpw, hr]

theorem runRegister_validated {req : RequestBody} (db : DBOutcomes)
    (secret : Option (List Char)) (s0 : Store) (hv : validationPasses req) :
    runRegister req db secret s0 = .ok (insertPhase req db secret s0) := by
  obtain ⟨h1, h2, h3, h4, h5⟩ := hv
  unfold runRegister
  rw [h1]
  simp [h2, h3, h4, h5]

/-! ### The claims -/

/-- C1: for every password string `p`, `isValidPassword(p)` returns true iff
the length of `p` is at least 15, `p` contains at least one character from
the fixed special-character set, `p` contains at least one digit, and the sum
of the numeric values of the digit characters of `p` (each occurrence counted
once) is exactly 20; other characters contribute nothing to the sum. -/
theorem claim1_isValidPassword_spec (s : List Char) :
    isValidPassword (.str s) = .ok true ↔
      (15 ≤ jsLength s ∧ (∃ c ∈ s, c ∈ claimSpecialSet) ∧
       (∃ c ∈ s, c.isDigit = true) ∧ digitSum s = 20) := by
  unfold isValidPassword
  dsimp only
  by_cases hl : jsLength s < 15
  · rw [if_pos hl]
    constructor
    · intro h; simp at h
    · rintro ⟨h15, -⟩; omega
  · rw [if_neg hl]
    have h15 : 15 ≤ jsLength s := Nat.not_lt.mp hl
    have hsum := pwScan_sum s ⟨0, false, false⟩
    have hnum := pwScan_isNum s ⟨0, false, false⟩
    have hsp := pwScan_special s ⟨0, false, false⟩
    simp only [Except.ok.injEq, Bool.and_eq_true, beq_iff_eq, hsum, hnum, hsp,
      Bool.false_or, Nat.zero_add, List.any_eq_true, notdigit_and_special_iff]
    constructor
    · rintro ⟨⟨hdig, hspec⟩, hs20⟩
      exact ⟨h15, hspec, hdig, hs20⟩
    · rintro ⟨-, hspec, hdig, hs20⟩
      exact ⟨⟨hdig, hspec⟩, hs20⟩

/-- C1 witness: a concrete password satisfying both sides. -/
theorem claim1_witness :
    isValidPassword (.str "992!aaaaaaaaaaaa".data) = .ok true :=
  (claim1_isValidPassword_spec "992!aaaaaaaaaaaa".data).mpr
    ⟨by decide, ⟨'!', by decide, by decide⟩, ⟨'9', by decide, by decide⟩, by decide⟩

/-- C2: the validation stages run in the order EmailCheck, RequiredFieldsCheck,
PhoneCheck, PasswordCheck, RoleCheck, and the first failing stage determines
the rejection; in particular an input failing both EmailCheck and
PasswordCheck gets the email rejection, never the password rejection. -/
theorem claim2_stage_order (req : RequestBody) (db : DBOutcomes)
    (secret : Option (List Char)) (s0 : Store) :
    (∀ st : Stage, firstFailingStage req pipelineStageOrder = .ok (some st) →
        runRegister req db secret s0 = .ok (stageRejection st, [], s0)) ∧
    (isValidEmail req.email = .ok false → isValidPassword req.password = .ok false →
        runRegister req db secret s0 = .ok (stageRejection .emailCheckStage, [], s0) ∧
        stageRejection .emailCheckStage ≠ stageRejection .passwordCheckStage) := by
  constructor
  · intro st h
    cases he : isValidEmail req.email with
    | error e =>
        simp [pipelineStageOrder, firstFailingStage, stageCheck, he] at h
    | ok eb =>
      cases eb with
      | false =>
          simp [pipelineStageOrder, firstFailingStage, stageCheck, he] at h
          subst h
          exact runRegister_email_fail db secret s0 he
      | true =>
        by_cases hf : requiredFieldsOk req
        · by_cases hp : isValidPhone req.phone
          · cases hpw : isValidPassword req.password with
            | error e =>
                simp [pipelineStageOrder, firstFailingStage, stageCheck, he, hf, hp,
                  hpw] at h
            | ok pb =>
              cases pb with
              | false =>
                  simp [pipelineStageOrder, firstFailingStage, stageCheck, he, hf, hp,
                    hpw] at h
                  subst h
                  exact runRegister_password_fail db secret s0 he hf hp hpw
              | true =>
                by_cases hr : isValidRole req.role
                · simp [pipelineStageOrder, firstFailingStage, stageCheck, he, hf, hp,
                    hpw, hr] at h
                · simp [pipelineStageOrder, firstFailingStage, stageCheck, he, hf, hp,
                    hpw, hr] at h
                  subst h
                  exact runRegister_role_fail db secret s0 he hf hp hpw
                    (Bool.not_eq_true _ ▸ eq_false_of_ne_true hr)
          · simp [pipelineStageOrder, firstFailingStage, stageCheck, he, hf,
              Bool.not_eq_true _ ▸ hp] at h
            subst h
            exact runRegister_phone_fail db secret s0 he hf
              (Bool.not_eq_true _ ▸ eq_false_of_ne_true hp)
        · simp [pipelineStageOrder, firstFailingStage, stageCheck, he, hf] at h
          subst h
          exact runRegister_fields_fail db secret s0 he
            (Bool.not_eq_true _ ▸ eq_false_of_ne_true hf)
  · intro he hpw
    exact ⟨runRegister_email_fail db secret s0 he, by decide⟩

/-- C2 witness: a request with both an invalid email and an invalid password
is rejected with the email rejection. -/
theorem claim2_witness :
    runRegister
        { validReq with email := .str "nope".data, password := .str "short".data }
        dbOk none emptyStore =
      .ok (stageRejection .emailCheckStage, [], emptyStore) ∧
    stageRejection .emailCheckStage ≠ stageRejection .passwordCheckStage :=
  (claim2_stage_order
      { validReq with email := .str "nope".data, password := .str "short".data }
      dbOk none emptyStore).2 rfl rfl

/-- C3: every rejection the pipeline emits (any response other than the 201
success) carries one of the eight stable reason codes — its body is the fixed
message string of exactly one of `MissingFields`, `InvalidPassword`,
`InvalidPhone`, `InvalidEmail`, `InvalidRole`, `UsernameTaken`, `EmailTaken`,
`InternalError` — and distinct codes have distinct strings. -/
theorem claim3_reason_codes (req : RequestBody) (db : DBOutcomes)
    (secret : Option (List Char)) (s0 : Store) (resp : HttpResponse)
    (logs : List LogEntry) (st : Store)
    (hrun : runRegister req db secret s0 = .ok (resp, logs, st))
    (h201 : resp.status ≠ 201) :
    (∃ code : ReasonCode, resp.body = .message (reasonMessage code)) ∧
    (∀ code code' : ReasonCode,
        reasonMessage code = reasonMessage code' → code = code') := by
  refine ⟨?_, by intro code code' h; cases code <;> cases code' <;> first | rfl | (exfalso; revert h; decide)⟩
  cases he : isValidEmail req.email with
  | error e =>
      rw [runRegister_email_err db secret s0 he] at hrun
      simp at hrun
  | ok eb =>
    cases eb with
    | false =>
        rw [runRegister_email_fail db secret s0 he] at hrun
        obtain ⟨h1, -, -⟩ := by simpa using hrun
        exact ⟨.invalidEmailCode, by rw [← h1]; rfl⟩
    | true =>
      by_cases hf : requiredFieldsOk req
      case neg =>
        rw [runRegister_fields_fail db secret s0 he
          (Bool.not_eq_true _ ▸ eq_false_of_ne_true hf)] at hrun
        obtain ⟨h1, -, -⟩ := by simpa using hrun
        exact ⟨.missingFieldsCode, by rw [← h1]; rfl⟩
      case pos =>
      by_cases hp : isValidPhone req.phone
      case neg =>
        rw [runRegister_phone_fail db secret s0 he hf
          (Bool.not_eq_true _ ▸ eq_false_of_ne_true hp)] at hrun
        obtain ⟨h1, -, -⟩ := by simpa using hrun
        exact ⟨.invalidPhoneCode, by rw [← h1]; rfl⟩
      case pos =>
      cases hpw : isValidPassword req.password with
      | error e =>
          rw [runRegister_password_err db secret s0 he hf hp hpw] at hrun
          simp at hrun
      | ok pb =>
        cases pb with
        | false =>
            rw [runRegister_password_fail db secret s0 he hf hp hpw] at hrun
            obtain ⟨h1, -, -⟩ := by simpa using hrun
            exact ⟨.invalidPasswordCode, by rw [← h1]; rfl⟩
        | true =>
          by_cases hr : isValidRole req.role
          case neg =>
            rw [runRegister_role_fail db secret s0 he hf hp hpw
              (Bool.not_eq_true _ ▸ eq_false_of_ne_true hr)] at hrun
            obtain ⟨h1, -, -⟩ := by simpa using hrun
            exact ⟨.invalidRoleCode, by rw [← h1]; rfl⟩
          case pos =>
          rw [runRegister_validated db secret s0 ⟨he, hf, hp, hpw, hr⟩] at hrun
          unfold insertPhase at hrun
          cases ha : db.accountInsert with
          | error e =>
              rw [ha] at hrun
              by_cases hu : e.constraint = some accountUsernameKey
              · simp [accountInsertFailureResponse, hu] at hrun
                obtain ⟨h1, -, -⟩ := hrun
                exact ⟨.usernameTakenCode, by rw [← h1]; rfl⟩
              · by_cases hm : e.constraint = some accountEmailKey
                · simp [accountInsertFailureResponse, hu, hm] at hrun
                  obtain ⟨h1, -, -⟩ := hrun
                  exact ⟨.emailTakenCode, by rw [← h1]; rfl⟩
                · simp [accountInsertFailureResponse, hu, hm] at hrun
                  obtain ⟨h1, -, -⟩ := hrun
                  exact ⟨.internalErrorCode, by rw [← h1]; rfl⟩
          | ok aid =>
            rw [ha] at hrun
            cases hc : db.credentialInsert with
            | error e =>
                rw [hc] at hrun
                obtain ⟨h1, -, -⟩ := by simpa using hrun
                exact ⟨.internalErrorCode, by rw [← h1]; rfl⟩
            | ok u =>
              rw [hc] at hrun
              dsimp only at hrun
              cases hs : jwtSign req.role aid secret ("14 days".data) with
              | ok tok =>
                  rw [hs] at hrun
                  obtain ⟨h1, -, -⟩ := by simpa using hrun
                  rw [← h1] at h201
                  simp at h201
              | error e =>
                  rw [hs] at hrun
                  obtain ⟨h1, -, -⟩ := by simpa using hrun
                  exact ⟨.internalErrorCode, by rw [← h1]; rfl⟩

/-- C3 witness: a concrete rejection carries the `InvalidPhone` code. -/
theorem claim3_witness :
    (∃ code : ReasonCode,
        (HttpResponse.mk 400 (.message invalidPhoneMsg)).body =
          .message (reasonMessage code)) ∧
    (∀ code code' : ReasonCode,
        reasonMessage code = reasonMessage code' → code = code') :=
  claim3_reason_codes { validReq with phone := .str "555".data } dbOk none emptyStore
    ⟨400, .message invalidPhoneMsg⟩ [] emptyStore rfl (by decide)

/-- C4: when the Account insert fails, a unique-constraint violation on the
username constraint yields the `UsernameTaken` rejection, one on the email
constraint yields `EmailTaken`, and every other persistence failure yields
the constant opaque 500 `InternalError` response, independent of the error's
content. -/
theorem claim4_account_insert_failures (req : RequestBody) (db : DBOutcomes)
    (secret : Option (List Char)) (s0 : Store) (e : DBError)
    (hv : validationPasses req) (ha : db.accountInsert = .error e) :
    runRegister req db secret s0 =
      .ok (accountInsertFailureResponse e,
           LogEntry.dir (maskedBody req) :: accountInsertFailureLogs e, s0) ∧
    (e.constraint = some accountUsernameKey →
        accountInsertFailureResponse e = ⟨400, .message usernameExistsMsg⟩) ∧
    (e.constraint ≠ some accountUsernameKey → e.constraint = some accountEmailKey →
        accountInsertFailureResponse e = ⟨400, .message emailExistsMsg⟩) ∧
    (e.constraint ≠ some accountUsernameKey → e.constraint ≠ some accountEmailKey →
        accountInsertFailureResponse e = ⟨500, .message serverErrorMsg⟩) := by
  refine ⟨?_, ?_, ?_, ?_⟩
  · rw [runRegister_validated db secret s0 hv]
    unfold insertPhase
    rw [ha]
    rfl
  · intro hu
    simp [accountInsertFailureResponse, hu]
  · intro hu hm
    simp [accountInsertFailureResponse, hu, hm]
    intro hx
    exact absurd hx (by decide)
  · intro hu hm
    simp [accountInsertFailureResponse, hu, hm]

/-- C4 witness: a concrete username-unique violation yields `UsernameTaken`. -/
theorem claim4_witness :
    runRegister validReq ⟨.error ⟨some accountUsernameKey⟩, .ok ()⟩ none emptyStore =
      .ok (accountInsertFailureResponse ⟨some accountUsernameKey⟩,
           LogEntry.dir (maskedBody validReq) ::
             accountInsertFailureLogs ⟨some accountUsernameKey⟩, emptyStore) ∧
    accountInsertFailureResponse ⟨some accountUsernameKey⟩ =
      ⟨400, .message usernameExistsMsg⟩ := by
  have h := claim4_account_insert_failures validReq
    ⟨.error ⟨some accountUsernameKey⟩, .ok ()⟩ none emptyStore
    ⟨some accountUsernameKey⟩ ⟨rfl, rfl, rfl, rfl, rfl⟩ rfl
  exact ⟨h.1, h.2.1 rfl⟩

/-- C5: when the Credential insert fails after the Account insert succeeded,
the pipeline rejects with the 500 `InternalError` response and the Account
row persists: the final store still contains the freshly inserted Account
row, the Account list has only grown, and the credential list is unchanged —
no compensating deletion happens. -/
theorem claim5_orphan_account (req : RequestBody) (db : DBOutcomes)
    (secret : Option (List Char)) (s0 : Store) (aid : Int) (e : DBError)
    (hv : validationPasses req) (ha : db.accountInsert = .ok aid)
    (hc : db.credentialInsert = .error e) :
    runRegister req db secret s0 =
      .ok (⟨500, .message serverErrorMsg⟩,
           [.dir (maskedBody req), .errLine dbQueryErrorLine, .errObj (.db e)],
           ⟨s0.accounts ++ [mkAccountRow req aid], s0.credentials⟩) ∧
    (∀ resp logs st, runRegister req db secret s0 = .ok (resp, logs, st) →
        mkAccountRow req aid ∈ st.accounts ∧
        st.accounts = s0.accounts ++ [mkAccountRow req aid] ∧
        st.credentials = s0.credentials) := by
  have hmain : runRegister req db secret s0 =
      .ok (⟨500, .message serverErrorMsg⟩,
           [.dir (maskedBody req), .errLine dbQueryErrorLine, .errObj (.db e)],
           ⟨s0.accounts ++ [mkAccountRow req aid], s0.credentials⟩) := by
    rw [runRegister_validated db secret s0 hv]
    unfold insertPhase
    rw [ha, hc]
    rfl
  refine ⟨hmain, ?_⟩
  intro resp logs st hrun
  rw [hmain] at hrun
  obtain ⟨-, -, h3⟩ := by simpa using hrun
  rw [← h3]
  simp

/-- C5 witness: concrete credential-insert failure leaves the orphan account. -/
theorem claim5_witness :
    runRegister validReq ⟨.ok 1, .error ⟨none⟩⟩ none emptyStore =
      .ok (⟨500, .message serverErrorMsg⟩,
           [.dir (maskedBody validReq), .errLine dbQueryErrorLine,
            .errObj (.db ⟨none⟩)],
           ⟨[mkAccountRow validReq 1], []⟩) :=
  (claim5_orphan_account validReq ⟨.ok 1, .error ⟨none⟩⟩ none emptyStore 1 ⟨none⟩
    ⟨rfl, rfl, rfl, rfl, rfl⟩ rfl rfl).1

/-- C6 (code-bug evidence): the email and password validators are NOT total.
On a missing (`undefined`) value, `email.toLowerCase()` resp.
`password.length` throws a `TypeError` instead of returning false, and a
request with a missing email makes the whole chain throw; a non-string
password also throws (at the `for..of` iteration).  The phone and role
validators do return false on the same inputs. -/
theorem claim6_validators_not_total :
    isValidEmail JSValue.undef = .error () ∧
    isValidPassword JSValue.undef = .error () ∧
    isValidPassword (JSValue.num 5) = .error () ∧
    isValidPhone JSValue.undef = false ∧
    isValidRole JSValue.undef = false ∧
    runRegister { validReq with email := .undef } dbOk none emptyStore = .error () :=
  ⟨rfl, rfl, rfl, rfl, rfl, rfl⟩

/-- C7 counterexample: the absence of a configured key is not startup-fatal
and requests are still served — the same valid registration that yields 201
when a key is configured yields a per-request 500 when the key is absent
(`jwt.sign` throws at request time, caught by the credential `.catch`). -/
theorem claim7_counterexample :
    runRegister validReq dbOk (some "sk".data) emptyStore =
      .ok (⟨201, .success ⟨validReq.role, 1, "sk".data, "14 days".data⟩ 1⟩,
           [.dir (maskedBody validReq)], ⟨[mkAccountRow validReq 1], [⟨1⟩]⟩) ∧
    runRegister validReq dbOk none emptyStore =
      .ok (⟨500, .message serverErrorMsg⟩,
           [.dir (maskedBody validReq), .errLine dbQueryErrorLine,
            .errObj .signFailure], ⟨[mkAccountRow validReq 1], [⟨1⟩]⟩) :=
  ⟨rfl, rfl⟩

/-- C7 amended: the key object is created once at module load and never
mutated (a fixed parameter of the model), but its absence is not checked at
startup: the process serves requests without a key, and a registration that
passes validation and both inserts fails per-request at `jwt.sign`, whose
throw the credential-insert catch handler turns into the 500 `InternalError`
response. -/
theorem claim7_amended_missing_key (req : RequestBody) (db : DBOutcomes)
    (s0 : Store) (aid : Int)
    (hv : validationPasses req) (ha : db.accountInsert = .ok aid)
    (hc : db.credentialInsert = .ok ()) :
    runRegister req db none s0 =
      .ok (⟨500, .message serverErrorMsg⟩,
           [.dir (maskedBody req), .errLine dbQueryErrorLine, .errObj .signFailure],
           ⟨s0.accounts ++ [mkAccountRow req aid], s0.credentials ++ [⟨aid⟩]⟩) := by
  rw [runRegister_validated db none s0 hv]
  unfold insertPhase
  rw [ha, hc]
  rfl

/-- C7 witness: concrete run of the amended statement. -/
theorem claim7_witness :
    runRegister validReq dbOk none emptyStore =
      .ok (⟨500, .message serverErrorMsg⟩,
           [.dir (maskedBody validReq), .errLine dbQueryErrorLine,
            .errObj .signFailure], ⟨[mkAccountRow validReq 1], [⟨1⟩]⟩) :=
  claim7_amended_missing_key validReq dbOk emptyStore 1 ⟨rfl, rfl, rfl, rfl, rfl⟩
    rfl rfl

/-- C8 counterexample: the string `"2.5"` does not parse as an integer in
[1,5] (it is a fractional numeral), yet `isValidRole("2.5")` returns true —
`Number("2.5")` is not `NaN` and `parseInt("2.5")` is 2. -/
theorem claim8_counterexample :
    isValidRole (.str "2.5".data) = true ∧
    integerNumeralInRange "2.5".data = false :=
  ⟨rfl, rfl⟩

/-- C8 amended: `isValidRole(r)` returns true iff r is a provided number — a
number value, or a non-empty string accepted by JS number conversion — whose
`parseInt` result (the leading integer part) lies in [1,5].  Exact integer
numerals in [1,5] are accepted as the claim says, but so are fractional and
similar numerals whose leading integer part is in range, such as `"2.5"`. -/
theorem claim8_isValidRole_amended (v : JSValue) :
    isValidRole v = true ↔
      (isNumberProvided v = true ∧
       ∃ n : Int, parseIntVal v = some n ∧ 1 ≤ n ∧ n ≤ 5) := by
  unfold isValidRole
  cases hp : parseIntVal v with
  | none => simp [hp]
  | some n => simp [hp, Bool.and_eq_true, decide_eq_true_iff, and_assoc]

/-- C8 witness: the amended characterization accepts the integer numeral 3. -/
theorem claim8_witness : isValidRole (.str "3".data) = true :=
  (claim8_isValidRole_amended (.str "3".data)).mpr
    ⟨rfl, 3, rfl, by decide, by decide⟩

/-- The only log traces a run can produce: nothing (a validation rejection),
the masked `console.dir` alone, or the masked `console.dir` followed by the
two `console.error` lines of a catch handler. -/
theorem runRegister_log_shapes (req : RequestBody) (db : DBOutcomes)
    (secret : Option (List Char)) (s0 : Store) (resp : HttpResponse)
    (logs : List LogEntry) (st : Store)
    (hrun : runRegister req db secret s0 = .ok (resp, logs, st)) :
    logs = [] ∨ logs = [.dir (maskedBody req)] ∨
    (∃ e, logs = [.dir (maskedBody req), .errLine dbQueryErrorLine,
                  .errObj (.db e)]) ∨
    logs = [.dir (maskedBody req), .errLine dbQueryErrorLine,
            .errObj .signFailure] := by
  cases he : isValidEmail req.email with
  | error e =>
      rw [runRegister_email_err db secret s0 he] at hrun
      simp at hrun
  | ok eb =>
    cases eb with
    | false =>
        rw [runRegister_email_fail db secret s0 he] at hrun
        obtain ⟨-, h2, -⟩ := by simpa using hrun
        exact Or.inl h2
    | true =>
      by_cases hf : requiredFieldsOk req
      case neg =>
        rw [runRegister_fields_fail db secret s0 he
          (Bool.not_eq_true _ ▸ eq_false_of_ne_true hf)] at hrun
        obtain ⟨-, h2, -⟩ := by simpa using hrun
        exact Or.inl h2
      case pos =>
      by_cases hp : isValidPhone req.phone
      case neg =>
        rw [runRegister_phone_fail db secret s0 he hf
          (Bool.not_eq_true _ ▸ eq_false_of_ne_true hp)] at hrun
        obtain ⟨-, h2, -⟩ := by simpa using hrun
        exact Or.inl h2
      case pos =>
      cases hpw : isValidPassword req.password with
      | error e =>
          rw [runRegister_password_err db secret s0 he hf hp hpw] at hrun
          simp at hrun
      | ok pb =>
        cases pb with
        | false =>
            rw [runRegister_password_fail db secret s0 he hf hp hpw] at hrun
            obtain ⟨-, h2, -⟩ := by simpa using hrun
            exact Or.inl h2
        | true =>
          by_cases hr : isValidRole req.role
          case neg =>
            rw [runRegister_role_fail db secret s0 he hf hp hpw
              (Bool.not_eq_true _ ▸ eq_false_of_ne_true hr)] at hrun
            obtain ⟨-, h2, -⟩ := by simpa using hrun
            exact Or.inl h2
          case pos =>
          rw [runRegister_validated db secret s0 ⟨he, hf, hp, hpw, hr⟩] at hrun
          unfold insertPhase at hrun
          cases ha : db.accountInsert with
          | error e =>
              rw [ha] at hrun
              dsimp only at hrun
              by_cases hu : e.constraint = some accountUsernameKey
              · simp [accountInsertFailureLogs, hu] at hrun
                obtain ⟨-, h2, -⟩ := hrun
                exact Or.inr (Or.inl h2.symm)
              · by_cases hm : e.constraint = some accountEmailKey
                · simp [accountInsertFailureLogs, hu, hm] at hrun
                  obtain ⟨-, h2, -⟩ := hrun
                  exact Or.inr (Or.inl h2.symm)
                · simp [accountInsertFailureLogs, hu, hm] at hrun
                  obtain ⟨-, h2, -⟩ := hrun
                  exact Or.inr (Or.inr (Or.inl ⟨e, h2.symm⟩))
          | ok aid =>
            rw [ha] at hrun
            cases hc : db.credentialInsert with
            | error e =>
                rw [hc] at hrun
                obtain ⟨-, h2, -⟩ := by simpa using hrun
                exact Or.inr (Or.inr (Or.inl ⟨e, h2.symm⟩))
            | ok u =>
              rw [hc] at hrun
              dsimp only at hrun
              cases hs : jwtSign req.role aid secret ("14 days".data) with
              | ok tok =>
                  rw [hs] at hrun
                  obtain ⟨-, h2, -⟩ := by simpa using hrun
                  exact Or.inr (Or.inl h2.symm)
              | error e =>
                  rw [hs] at hrun
                  obtain ⟨-, h2, -⟩ := by simpa using hrun
                  exact Or.inr (Or.inr (Or.inr h2.symm))

/-- C9: every request body the pipeline writes to its log has the password
field replaced by the literal `"******"` (so the submitted password value
never appears as a logged password), and every request that reaches the
AccountInsert stage does log exactly that masked copy of its body. -/
theorem claim9_password_masked (req : RequestBody) (db : DBOutcomes)
    (secret : Option (List Char)) (s0 : Store) :
    (∀ resp logs st b, runRegister req db secret s0 = .ok (resp, logs, st) →
        LogEntry.dir b ∈ logs →
        b = maskedBody req ∧ b.password = .str passwordMask) ∧
    (validationPasses req → ∀ resp logs st,
        runRegister req db secret s0 = .ok (resp, logs, st) →
        LogEntry.dir (maskedBody req) ∈ logs) := by
  constructor
  · intro resp logs st b hrun hmem
    have hshape := runRegister_log_shapes req db secret s0 resp logs st hrun
    have hb : b = maskedBody req := by
      rcases hshape with h | h | ⟨e, h⟩ | h <;> subst h <;> simp at hmem <;>
        exact hmem
    exact ⟨hb, by rw [hb]; rfl⟩
  · intro hv resp logs st hrun
    rw [runRegister_validated db secret s0 hv] at hrun
    unfold insertPhase at hrun
    cases ha : db.accountInsert with
    | error e =>
        rw [ha] at hrun
        obtain ⟨-, h2, -⟩ := by simpa using hrun
        rw [← h2]
        simp
    | ok aid =>
      rw [ha] at hrun
      cases hc : db.credentialInsert with
      | error e =>
          rw [hc] at hrun
          obtain ⟨-, h2, -⟩ := by simpa using hrun
          rw [← h2]
          simp
      | ok u =>
        rw [hc] at hrun
        dsimp only at hrun
        cases hs : jwtSign req.role aid secret ("14 days".data) with
        | ok tok =>
            rw [hs] at hrun
            obtain ⟨-, h2, -⟩ := by simpa using hrun
            rw [← h2]
            simp
        | error e =>
            rw [hs] at hrun
            obtain ⟨-, h2, -⟩ := by simpa using hrun
            rw [← h2]
            simp

/-- C9 witness: the masked body is logged on a concrete successful run, and
its password field is the mask. -/
theorem claim9_witness :
    LogEntry.dir (maskedBody validReq) ∈ ([.dir (maskedBody validReq)] : List LogEntry) ∧
    (maskedBody validReq).password = .str passwordMask := by
  have h := claim9_password_masked validReq dbOk (some "sk".data) emptyStore
  refine ⟨?_, ?_⟩
  · exact h.2 ⟨rfl, rfl, rfl, rfl, rfl⟩
      ⟨201, .success ⟨validReq.role, 1, "sk".data, "14 days".data⟩ 1⟩
      [.dir (maskedBody validReq)] ⟨[mkAccountRow validReq 1], [⟨1⟩]⟩ rfl
  · exact (h.1 ⟨201, .success ⟨validReq.role, 1, "sk".data, "14 days".data⟩ 1⟩
      [.dir (maskedBody validReq)] ⟨[mkAccountRow validReq 1], [⟨1⟩]⟩
      (maskedBody validReq) rfl (by simp)).2

/-- C10: a successful registration signs a token whose payload is exactly the
raw submitted role value and the storage-assigned id, with expiry option
`14 days`, and responds 201 with the token and the id. -/
theorem claim10_success_response (req : RequestBody) (db : DBOutcomes)
    (s0 : Store) (aid : Int) (k : List Char)
    (hv : validationPasses req) (ha : db.accountInsert = .ok aid)
    (hc : db.credentialInsert = .ok ()) (hk : k ≠ []) :
    runRegister req db (some k) s0 =
      .ok (⟨201, .success ⟨req.role, aid, k, "14 days".data⟩ aid⟩,
           [.dir (maskedBody req)],
           ⟨s0.accounts ++ [mkAccountRow req aid], s0.credentials ++ [⟨aid⟩]⟩) := by
  rw [runRegister_validated db (some k) s0 hv]
  unfold insertPhase
  rw [ha, hc]
  simp [jwtSign, hk]

/-- C10 witness: the concrete valid request with account id 1 and key "sk". -/
theorem claim10_witness :
    runRegister validReq dbOk (some "sk".data) emptyStore =
      .ok (⟨201, .success ⟨validReq.role, 1, "sk".data, "14 days".data⟩ 1⟩,
           [.dir (maskedBody validReq)],
           ⟨[mkAccountRow validReq 1], [⟨1⟩]⟩) :=
  claim10_success_response validReq dbOk emptyStore 1 "sk".data
    ⟨rfl, rfl, rfl, rfl, rfl⟩ rfl rfl (by decide)

end Register
